import Mathlib

/-!
# Verification of the network-monitoring backend

Shallow embedding of the two core subsystems of the repository
(`Backend/alerts.py`, `Backend/database.py`, `Backend/routers/activity.py`,
`Backend/routers/commands.py`):

* the policy-violation detector (`PolicyViolationDetector`), and
* the command-distribution layer (command log, pending-command drain,
  derived blocked-domain state, global broadcast) together with the alert
  lifecycle.

Conventions used throughout the embedding:

* Machine timestamps (`datetime('now')`, ISO strings in the database) are
  modelled as natural numbers counting seconds; SQLite's `datetime` has
  one-second resolution, so distinct events may share a timestamp.
* Python floats (CPU percentages, rates, thresholds) are modelled as
  rationals; only order comparisons are ever performed on them.
* SQL result sets are modelled as Lean lists.  Where a query gives an
  `ORDER BY` clause, the model sorts with a stable insertion sort, which
  resolves ties the way a stable scan over the table does; where SQL leaves
  the order of equal keys unspecified (`ORDER BY created_at DESC LIMIT 1`
  with no tiebreak) the model resolves the tie to the first row in scan
  (rowid) order, and this modelling choice is flagged at the definition.
* Numeric interpolation inside human-readable finding strings abbreviates
  Python's fixed-decimal float formatting with `toString`; no claim below
  depends on the digits of those renderings, only on the shape of the
  strings around them.
-/

namespace NetMon

/-! ## Detector data model (`Backend/alerts.py`) -/

/-- The static suspicious-keyword list `SUSPICIOUS_DOMAINS`
(`Backend/alerts.py` lines 13-16). -/
def SUSPICIOUS_DOMAINS : List String :=
  ["torrent", "proxy", "vpn", "darkweb", "hack", "crack",
   "pirate", "download", "streaming", "gaming"]

/-- Configuration read by `PolicyViolationDetector.__init__` from `settings`,
plus the externally loaded blocked-domain list that
`_load_blocked_domains` reads from `policies.json` (treated as
configuration: the detector only ever reads it). -/
structure DetectorConfig where
  blocked_keywords : List String
  bandwidth_threshold_bytes : Nat
  cpu_threshold : Rat
  memory_threshold : Rat
  disk_threshold : Rat
  max_connections : Nat
  upload_rate_threshold_kbps : Rat
  download_rate_threshold_kbps : Rat
  blocked_domains : List String
deriving DecidableEq

/-- One entry of the `destinations` list: a dict with keys `ip`, `port` and
an optional `domain` (DNS may fail, and `dest.get('domain', '')` then
yields the empty string). -/
structure Dest where
  ip : String
  port : Nat
  domain : Option String
deriving DecidableEq

/-- Python's `needle in hay` substring test on strings. -/
def containsSubstring (needle hay : String) : Bool :=
  hay.toList.tails.any (fun t => needle.toList.isPrefixOf t)

/-- Python's `str.lower()`, as the character-wise lowercase map (the
kernel-computable form of `String.toLower`). -/
def strToLower (s : String) : String :=
  ⟨s.data.map Char.toLower⟩

/-- `dest.get('domain', '').lower()` (`Backend/alerts.py` lines 178, 188). -/
def destDomainLower (dest : Dest) : String :=
  strToLower (dest.domain.getD "")

/-- The list of processes flagged by `_check_blocked_processes`
(`Backend/alerts.py` lines 224-231): every process whose lowercased name
contains some blocked keyword, in process-list order, recorded at most once
per process (the Python inner loop breaks after the first keyword hit). -/
def violatedProcessesOf (blocked_keywords : List String) (processes : List String) :
    List String :=
  processes.filter (fun process =>
    blocked_keywords.any (fun keyword => containsSubstring keyword (strToLower process)))

/-- Finding text of `_check_blocked_processes` (`Backend/alerts.py` line 237). -/
def processReason (violated : List String) : String :=
  "Blocked application detected: " ++ String.intercalate ", " violated

/-- Finding text of `_check_bandwidth_threshold` (`Backend/alerts.py` line 266);
the MB fixed-decimal rendering is abbreviated per the file header. -/
def bandwidthReason (total threshold : Nat) : String :=
  "Bandwidth threshold exceeded: " ++ toString total ++
    " (limit: " ++ toString threshold ++ ")"

/-- The `suspicious_found` list built by `_check_suspicious_domains`
(`Backend/alerts.py` lines 175-190): first every destination whose nonempty
lowercased domain contains a suspicious keyword (appended once per
destination, inner loop breaks), then every destination whose lowercased
domain is exactly in the loaded blocked-domain list, tagged
`" (blocked policy)"` (this second loop has no nonemptiness guard, as in
the source). -/
def suspiciousFound (blocked_domains : List String) (destinations : List Dest) :
    List String :=
  (destinations.filterMap (fun dest =>
    let domain := destDomainLower dest
    if !domain.isEmpty &&
        SUSPICIOUS_DOMAINS.any (fun keyword => containsSubstring keyword domain) then
      some domain
    else none)) ++
  (destinations.filterMap (fun dest =>
    let domain := destDomainLower dest
    if blocked_domains.contains domain then some (domain ++ " (blocked policy)")
    else none))

/-- `set(suspicious_found[:3])` (`Backend/alerts.py` line 193): the distinct
elements among the first three matches.  Python's `set` iteration order is
arbitrary; the model uses `List.dedup`, whose order is one admissible
choice — no claim depends on the order inside the joined string. -/
def suspExamples (found : List String) : List String :=
  (found.take 3).dedup

/-- `len(set(suspicious_found))` (`Backend/alerts.py` line 194): the number of
distinct matches. -/
def suspCount (found : List String) : Nat :=
  found.dedup.length

/-- Fixed prefix of the suspicious-domain finding (`Backend/alerts.py` line 197). -/
def suspBase : String :=
  "Suspicious/blocked domain access detected: "

/-- The reason string assembled at `Backend/alerts.py` lines 193-197:
the joined examples, plus a `" (+N more)"` suffix exactly when more than 3
distinct matches exist, with `N = count - 3`. -/
def suspReason (found : List String) : String :=
  suspBase ++ String.intercalate ", " (suspExamples found) ++
    (if 3 < suspCount found then
      " (+" ++ toString (suspCount found - 3) ++ " more)"
    else "")

/-- `_check_suspicious_domains` (`Backend/alerts.py` lines 165-200), with the
returned dict `{violation, reason}` collapsed to `Option String` (`some`
exactly when `violation` is true). -/
def check_suspicious_domains (blocked_domains : List String)
    (destinations : List Dest) : Option String :=
  let found := suspiciousFound blocked_domains destinations
  if !found.isEmpty then some (suspReason found) else none

/-- Finding text for the connection-count rule (`Backend/alerts.py` line 105). -/
def connectionsReason (count limit : Nat) : String :=
  "Excessive network connections detected: " ++ toString count ++
    " active connections (limit: " ++ toString limit ++ ")"

/-- Finding text for the CPU rule (`Backend/alerts.py` line 110). -/
def cpuReason (cpu threshold : Rat) : String :=
  "High CPU usage detected: " ++ toString cpu ++
    "% (threshold: " ++ toString threshold ++ "%)"

/-- Finding text for the memory rule (`Backend/alerts.py` line 115). -/
def memoryReason (memory threshold : Rat) : String :=
  "High memory usage detected: " ++ toString memory ++
    "% (threshold: " ++ toString threshold ++ "%)"

/-- Finding text for the disk rule (`Backend/alerts.py` line 120). -/
def diskReason (disk threshold : Rat) : String :=
  "High disk usage detected: " ++ toString disk ++
    "% (threshold: " ++ toString threshold ++ "%)"

/-- Finding text for the upload-rate rule (`Backend/alerts.py` line 125). -/
def uploadReason (rate threshold : Rat) : String :=
  "Excessive upload rate detected: " ++ toString rate ++
    " KB/s (threshold: " ++ toString threshold ++ ")"

/-- Finding text for the download-rate rule (`Backend/alerts.py` line 130). -/
def downloadReason (rate threshold : Rat) : String :=
  "Excessive download rate detected: " ++ toString rate ++
    " KB/s (threshold: " ++ toString threshold ++ ")"

/-- One optional finding: the `(reason, severity)` pair a rule appends when its
guard holds, and nothing otherwise. -/
def optFinding (cond : Bool) (reason severity : String) : List (String × String) :=
  if cond then [(reason, severity)] else []

/-- The suspicious-domain rule's contribution given the result of
`_check_suspicious_domains` (`Backend/alerts.py` lines 98-101). -/
def optFindingOf (result : Option String) (severity : String) :
    List (String × String) :=
  match result with
  | none => []
  | some reason => [(reason, severity)]

/-- Guard for an optional input: a rule reading an optional parameter
contributes nothing when the parameter is `None` (`is not None` checks and
the `if destinations:` truthiness test at `Backend/alerts.py` lines 97-131). -/
def optSegment {α : Type} (o : Option α) (f : α → List (String × String)) :
    List (String × String) :=
  match o with
  | none => []
  | some x => f x

/-- The sequence of `(reason, severity)` pairs appended by the body of
`check_violations` (`Backend/alerts.py` lines 79-131), in rule-evaluation
order.  Each rule's guard is transcribed from the source:

1. blocked processes (severity high),
2. bandwidth `bytes_sent + bytes_recv > threshold` (medium),
3. suspicious/blocked domains, only when `destinations` is truthy (high),
4. connection count, only when `destinations` is truthy and
   `len(destinations) > max_connections` (medium),
5. CPU, 6. memory, 7. disk: metric present and strictly above its
   threshold (medium each),
8. upload rate present and strictly above threshold (high),
9. download rate present and strictly above threshold (medium).

The Python parameter `active_connections` is accepted by `check_violations`
but never read by its body, so it does not appear here. -/
def ruleFindings (cfg : DetectorConfig) (processes : List String)
    (bytes_sent bytes_recv : Nat) (destinations : Option (List Dest))
    (cpu_percent memory_percent disk_percent : Option Rat)
    (upload_rate_kbps download_rate_kbps : Option Rat) : List (String × String) :=
  optFinding (!(violatedProcessesOf cfg.blocked_keywords processes).isEmpty)
    (processReason (violatedProcessesOf cfg.blocked_keywords processes)) "high" ++
  optFinding (decide (cfg.bandwidth_threshold_bytes < bytes_sent + bytes_recv))
    (bandwidthReason (bytes_sent + bytes_recv) cfg.bandwidth_threshold_bytes)
    "medium" ++
  optSegment destinations (fun dests =>
    if dests.isEmpty then []
    else optFindingOf (check_suspicious_domains cfg.blocked_domains dests) "high") ++
  optSegment destinations (fun dests =>
    optFinding (!dests.isEmpty && decide (cfg.max_connections < dests.length))
      (connectionsReason dests.length cfg.max_connections) "medium") ++
  optSegment cpu_percent (fun cpu =>
    optFinding (decide (cfg.cpu_threshold < cpu))
      (cpuReason cpu cfg.cpu_threshold) "medium") ++
  optSegment memory_percent (fun memory =>
    optFinding (decide (cfg.memory_threshold < memory))
      (memoryReason memory cfg.memory_threshold) "medium") ++
  optSegment disk_percent (fun disk =>
    optFinding (decide (cfg.disk_threshold < disk))
      (diskReason disk cfg.disk_threshold) "medium") ++
  optSegment upload_rate_kbps (fun rate =>
    optFinding (decide (cfg.upload_rate_threshold_kbps < rate))
      (uploadReason rate cfg.upload_rate_threshold_kbps) "high") ++
  optSegment download_rate_kbps (fun rate =>
    optFinding (decide (cfg.download_rate_threshold_kbps < rate))
      (downloadReason rate cfg.download_rate_threshold_kbps) "medium")

/-- `severity_order.get(s, 0)` (`Backend/alerts.py` line 160): unknown
severity strings rank 0. -/
def severity_order (s : String) : Nat :=
  if s = "low" then 0
  else if s = "medium" then 1
  else if s = "high" then 2
  else if s = "critical" then 3
  else 0

/-- `_escalate_severity` (`Backend/alerts.py` lines 149-163): the new severity
replaces the running one only when strictly higher in the rank order. -/
def escalate_severity (current new : String) : String :=
  if severity_order current < severity_order new then new else current

/-- The running-maximum loop of `check_violations`: the severity after folding
`_escalate_severity` over the triggered rules' severities in evaluation
order, starting from the initial `max_severity = "low"`. -/
def foldSeverity (init : String) (findings : List (String × String)) : String :=
  findings.foldl (fun acc f => escalate_severity acc f.2) init

/-- The `ViolationResult` model (fields as constructed by `check_violations`). -/
structure ViolationResult where
  violation : Bool
  reason : Option String
  severity : String
  violated_processes : List String
deriving DecidableEq

/-- `PolicyViolationDetector.check_violations` (`Backend/alerts.py` lines
36-147).  The `violations` list and the running `max_severity` are both
determined by the rule-ordered finding sequence `ruleFindings`; when no rule
fires the result is the fixed non-violation verdict.  `hostname` is accepted
for logging only, and `active_connections` is accepted but never read, as in
the source. -/
def check_violations (cfg : DetectorConfig) (processes : List String)
    (bytes_sent bytes_recv : Nat) (hostname : String)
    (destinations : Option (List Dest))
    (cpu_percent memory_percent disk_percent : Option Rat)
    (active_connections : Option Nat)
    (upload_rate_kbps download_rate_kbps : Option Rat) : ViolationResult :=
  let findings := ruleFindings cfg processes bytes_sent bytes_recv destinations
    cpu_percent memory_percent disk_percent upload_rate_kbps download_rate_kbps
  if findings.isEmpty then
    { violation := false
      reason := none
      severity := "low"
      violated_processes := [] }
  else
    { violation := true
      reason := some (String.intercalate "; " (findings.map Prod.fst))
      severity := foldSeverity "low" findings
      violated_processes := violatedProcessesOf cfg.blocked_keywords processes }

/-! ## Ingest pipeline (`Backend/routers/activity.py`) -/

/-- Modelled from the spec: the Backend request model (`models.ActivityRequest`)
is not among the source files; its fields follow the Telemetry Snapshot of
spec section 3 together with the attribute accesses made by
`routers/activity.py` (`hostname`, `bytes_sent`, `bytes_recv`, `processes`,
`websites`, `destinations`, `timestamp`). -/
structure ActivityRequest where
  hostname : String
  bytes_sent : Nat
  bytes_recv : Nat
  processes : List String
  websites : Option (List String)
  destinations : Option (List Dest)
  timestamp : Option String
  cpu_percent : Option Rat
  memory_percent : Option Rat
  disk_percent : Option Rat
  active_connections : Option Nat
  upload_rate_kbps : Option Rat
  download_rate_kbps : Option Rat
deriving DecidableEq

/-- The violation verdict computed by `submit_activity`
(`Backend/routers/activity.py` lines 99-105): `check_violations` is called
with only `processes`, `bytes_sent`, `bytes_recv` and `hostname`; every
other parameter is left at its Python default `None`. -/
def submit_activity_verdict (cfg : DetectorConfig) (activity : ActivityRequest) :
    ViolationResult :=
  check_violations cfg activity.processes activity.bytes_sent activity.bytes_recv
    activity.hostname none none none none none none none

/-! ## Command log (`Backend/database.py`) -/

/-- One row of the `commands` table (`Backend/database.py` lines 112-123).
`created_at` defaults to `datetime('now')`, which has one-second
resolution, so distinct rows can share a `created_at` value. -/
structure Command where
  id : Nat
  student_id : String
  action : String
  domain : Option String
  reason : Option String
  status : String
  created_at : Nat
  executed_at : Option Nat
deriving DecidableEq

/-- The `WHERE student_id = ? AND status = 'pending'` filter of
`get_pending_commands` (`Backend/database.py` lines 501-506). -/
def pendingFor (student_id : String) (c : Command) : Bool :=
  c.student_id == student_id && c.status == "pending"

/-- Comparison used to model `ORDER BY created_at ASC`. -/
def createdLe (a b : Command) : Prop :=
  a.created_at ≤ b.created_at

instance : DecidableRel createdLe := fun a b =>
  inferInstanceAs (Decidable (a.created_at ≤ b.created_at))

instance : IsTotal Command createdLe :=
  ⟨fun a b => Nat.le_total a.created_at b.created_at⟩

instance : IsTrans Command createdLe :=
  ⟨fun _ _ _ h h' => Nat.le_trans h h'⟩

/-- `Database.get_pending_commands` (`Backend/database.py` lines 489-509):
pending rows of the student, ordered by `created_at` ascending (stable with
respect to scan order, per the file header). -/
def get_pending_commands (student_id : String) (log : List Command) :
    List Command :=
  List.insertionSort createdLe (log.filter (pendingFor student_id))

/-- `Database.mark_command_executed` (`Backend/database.py` lines 511-528):
sets `status = 'executed'` and `executed_at` on every row with the given id
and reports whether any row was updated (`rowcount > 0`). -/
def mark_command_executed (command_id : Nat) (now : Nat) (log : List Command) :
    Bool × List Command :=
  (log.any (fun c => c.id == command_id),
   log.map (fun c =>
     if c.id == command_id then
       { c with status := "executed", executed_at := some now }
     else c))

/-- The command-poll handler `get_commands` (`Backend/routers/commands.py`
lines 40-76): fetches the student's pending commands, then marks each
returned command executed, one `mark_command_executed` per command.  The
first component is the drained sequence (the handler then formats it to
`(action, domain, reason)` triples, see `format_command`), the second the
command log after the marking side effect. -/
def drain (student_id : String) (now : Nat) (log : List Command) :
    List Command × List Command :=
  let commands := get_pending_commands student_id log
  (commands,
   commands.foldl (fun acc cmd => (mark_command_executed cmd.id now acc).2) log)

/-- The per-command response shape built at `Backend/routers/commands.py`
lines 64-70: internal id and timestamps are stripped. -/
def format_command (c : Command) : String × Option String × Option String :=
  (c.action, c.domain, c.reason)

/-- The cumulative effect of the marking loop in `get_commands`, indexed by
the ids of the commands being marked; `drain`'s second component folds
`mark_command_executed` over the drained commands, which is this fold over
their ids. -/
def applyMarks (ids : List Nat) (now : Nat) (log : List Command) : List Command :=
  ids.foldl (fun acc i => (mark_command_executed i now acc).2) log

/-- The inner query of `get_currently_blocked_domains`
(`Backend/database.py` lines 572-577):
`SELECT action FROM commands WHERE student_id = ? AND domain = ?
ORDER BY created_at DESC LIMIT 1`.  The query orders by `created_at` alone —
SQL leaves the relative order of rows with equal `created_at` unspecified,
and the model resolves such a tie to the first matching row in scan (rowid)
order: a later row replaces the current candidate only when its
`created_at` is strictly greater. -/
def latestFor (student_id : String) (domain : String) (log : List Command) :
    Option Command :=
  (log.filter (fun c => c.student_id == student_id && c.domain == some domain)).foldl
    (fun acc c =>
      match acc with
      | none => some c
      | some b => if b.created_at < c.created_at then some c else acc)
    none

/-- The grouping query of `get_currently_blocked_domains`
(`Backend/database.py` lines 561-566): the distinct non-null domains among
the student's commands (`GROUP BY domain`; group order is not specified by
the claimset, and the result is read as a set). -/
def domainsOf (student_id : String) (log : List Command) : List String :=
  (log.filterMap (fun c =>
    if c.student_id == student_id then c.domain else none)).dedup

/-- `Database.get_currently_blocked_domains` (`Backend/database.py` lines
553-580): a domain is reported blocked iff the row selected by `latestFor`
for it has action `BLOCK_DOMAIN`. -/
def get_currently_blocked_domains (student_id : String) (log : List Command) :
    List String :=
  (domainsOf student_id log).filter (fun domain =>
    match latestFor student_id domain log with
    | some c => c.action == "BLOCK_DOMAIN"
    | none => false)

/-- The `/commands/blocked-domains` handler (`Backend/routers/commands.py`
lines 91-94) runs only `SELECT` statements; the state component passes
through unchanged, which is exactly the read-only behaviour of the
source. -/
def blocked_domains_query (student_id : String) (log : List Command) :
    List String × List Command :=
  (get_currently_blocked_domains student_id log, log)

/-- `Database.add_command` (`Backend/database.py` lines 462-487): appends a
`pending` row whose id is the next rowid and returns `lastrowid`. -/
structure CommandState where
  log : List Command
  next_id : Nat
deriving DecidableEq

/-- See `CommandState`. -/
def add_command (student_id action : String) (domain reason : Option String)
    (now : Nat) (st : CommandState) : Nat × CommandState :=
  (st.next_id,
   { log := st.log ++
       [{ id := st.next_id, student_id := student_id, action := action,
          domain := domain, reason := reason, status := "pending",
          created_at := now, executed_at := none }]
     next_id := st.next_id + 1 })

/-! ## Active students and broadcast (`Backend/database.py`) -/

/-- One row of the `activities` table restricted to the two columns read by
`get_active_students` (`hostname`, `timestamp`). -/
structure Activity where
  hostname : String
  timestamp : Nat
deriving DecidableEq

/-- Comparison used to model `ORDER BY hostname`. -/
def hostLe (a b : String) : Prop := a ≤ b

instance : DecidableRel hostLe := fun a b =>
  inferInstanceAs (Decidable (a ≤ b))

instance : IsTotal String hostLe := ⟨fun a b => le_total a b⟩

instance : IsTrans String hostLe := ⟨fun _ _ _ h h' => le_trans h h'⟩

/-- `Database.get_active_students` (`Backend/database.py` lines 582-602):
distinct hostnames of activities whose timestamp lies within the trailing
`hours`-hour window, ordered by hostname.  The SQL window test
`datetime(timestamp) >= datetime('now', '-hours hours')` is
`now - hours*3600 ≤ timestamp`, written without truncating subtraction. -/
def get_active_students (hours : Nat) (now : Nat) (activities : List Activity) :
    List String :=
  List.insertionSort hostLe
    (((activities.filter (fun a => now ≤ a.timestamp + hours * 3600)).map
      (fun a => a.hostname)).dedup)

/-- Result dict of `create_global_command` (`Backend/database.py` lines
626-631 and 638-645); the failure branch omits the `action`/`domain` keys,
modelled as `none`. -/
structure GlobalCommandResult where
  success : Bool
  message : String
  commands_created : Nat
  students : List String
  action : Option String
  domain : Option String
deriving DecidableEq

/-- `Database.create_global_command` (`Backend/database.py` lines 604-645):
resolves the active students and, if none, returns the zero-count result
without touching the command log; otherwise enqueues one command per active
student (the loop counter equals the list length). -/
def create_global_command (action : String) (domain reason : Option String)
    (hours : Nat) (now : Nat) (activities : List Activity) (st : CommandState) :
    GlobalCommandResult × CommandState :=
  let active_students := get_active_students hours now activities
  if active_students.isEmpty then
    ({ success := false
       message := "No active students found"
       commands_created := 0
       students := []
       action := none
       domain := none }, st)
  else
    ({ success := true
       message := "Command sent to " ++ toString active_students.length ++ " student(s)"
       commands_created := active_students.length
       students := active_students
       action := some action
       domain := domain },
     active_students.foldl
       (fun acc student => (add_command student action domain reason now acc).2) st)

/-! ## Alert lifecycle (`Backend/database.py`) -/

/-- One row of the `alerts` table (`Backend/database.py` lines 85-98). -/
structure Alert where
  id : Nat
  hostname : String
  reason : String
  severity : String
  activity_id : Option Nat
  status : String
  timestamp : Nat
  resolved_at : Option Nat
deriving DecidableEq

/-- The alerts table plus the autoincrement counter (SQLite assigns strictly
increasing rowids and never reuses one for this table). -/
structure AlertState where
  alerts : List Alert
  next_id : Nat
deriving DecidableEq

/-- `Database.insert_alert` (`Backend/database.py` lines 240-269): appends a
fresh row with the schema default `status = 'active'` and returns
`lastrowid`. -/
def insert_alert (hostname reason severity : String) (activity_id : Option Nat)
    (now : Nat) (st : AlertState) : Nat × AlertState :=
  (st.next_id,
   { alerts := st.alerts ++
       [{ id := st.next_id, hostname := hostname, reason := reason,
          severity := severity, activity_id := activity_id, status := "active",
          timestamp := now, resolved_at := none }]
     next_id := st.next_id + 1 })

/-- `Database.resolve_alert` (`Backend/database.py` lines 310-331):
`UPDATE alerts SET status = 'resolved', resolved_at = ? WHERE id = ? AND
status = 'active'`, returning `rowcount > 0`. -/
def resolve_alert (alert_id : Nat) (now : Nat) (st : AlertState) :
    Bool × AlertState :=
  (st.alerts.any (fun a => a.id == alert_id && a.status == "active"),
   { st with
     alerts := st.alerts.map (fun a =>
       if a.id == alert_id && a.status == "active" then
         { a with status := "resolved", resolved_at := some now }
       else a) })

/-- The operations of the Backend that write to the `alerts` table: alert
insertion by the detector pipeline (`routers/activity.py` lines 110-121) and
resolution by explicit administrator action.  No other statement in the
source updates an alert row. -/
inductive AlertOp where
  | insert (hostname reason severity : String) (activity_id : Option Nat) (now : Nat)
  | resolve (alert_id : Nat) (now : Nat)
deriving DecidableEq

/-- State transition of one alert-table operation. -/
def applyAlertOp : AlertOp → AlertState → AlertState
  | AlertOp.insert hostname reason severity activity_id now, st =>
      (insert_alert hostname reason severity activity_id now st).2
  | AlertOp.resolve alert_id now, st => (resolve_alert alert_id now st).2

/-! ## Concrete instances used by the closed evaluation theorems -/

/-- A detector configuration with the shipped default policy values
(`Backend/config.py` defaults as logged by `main.py`, with no externally
loaded blocked-domain file for the detector witnesses that do not need
one). -/
def cfgW : DetectorConfig :=
  { blocked_keywords := ["torrent", "proxy", "nmap", "wireshark", "metasploit"]
    bandwidth_threshold_bytes := 500 * 1024 * 1024
    cpu_threshold := 90
    memory_threshold := 90
    disk_threshold := 95
    max_connections := 50
    upload_rate_threshold_kbps := 5 * 1024
    download_rate_threshold_kbps := 10 * 1024
    blocked_domains := [] }

/-- A `BLOCK_DOMAIN` directive for `youtube.com` on endpoint `PC01`,
already delivered, with rowid 1. -/
def blockW : Command :=
  { id := 1, student_id := "PC01", action := "BLOCK_DOMAIN",
    domain := some "youtube.com", reason := none, status := "executed",
    created_at := 100, executed_at := some 100 }

/-- An `UNBLOCK_DOMAIN` directive for the same endpoint and domain, enqueued
after `blockW` (rowid 2) but within the same `datetime('now')` second, so
its `created_at` ties with `blockW`'s. -/
def unblockW : Command :=
  { id := 2, student_id := "PC01", action := "UNBLOCK_DOMAIN",
    domain := some "youtube.com", reason := none, status := "pending",
    created_at := 100, executed_at := none }

/-- A pending directive for the drain witness. -/
def pendingW : Command :=
  { id := 3, student_id := "PC01", action := "BLOCK_DOMAIN",
    domain := some "games.example", reason := some "policy", status := "pending",
    created_at := 200, executed_at := none }

/-- A destination list with exactly one suspicious domain. -/
def destsW : List Dest :=
  [{ ip := "1.2.3.4", port := 443, domain := some "free-vpn.example" }]

/-- A telemetry snapshot for the ingest witnesses. -/
def activityW : ActivityRequest :=
  { hostname := "PC01", bytes_sent := 10, bytes_recv := 20
    processes := ["chrome.exe"], websites := none
    destinations := some [{ ip := "1.2.3.4", port := 443, domain := some "free-vpn.example" }]
    timestamp := some "2025-01-01T00:00:00"
    cpu_percent := some 99, memory_percent := none, disk_percent := none
    active_connections := some 1, upload_rate_kbps := none
    download_rate_kbps := some 1 }

/-- The same snapshot with every field outside
(processes, bytes_sent, bytes_recv, hostname) changed. -/
def activityW2 : ActivityRequest :=
  { hostname := "PC01", bytes_sent := 10, bytes_recv := 20
    processes := ["chrome.exe"], websites := some ["x.example"]
    destinations := none
    timestamp := none
    cpu_percent := none, memory_percent := some 1, disk_percent := some 2
    active_connections := none, upload_rate_kbps := some 3
    download_rate_kbps := none }

/-- One stale activity row: reported long before the broadcast window. -/
def staleActivityW : Activity :=
  { hostname := "PC01", timestamp := 0 }

/-- An alert table holding a single active alert with id 1. -/
def alertStateW : AlertState :=
  { alerts := [{ id := 1, hostname := "PC01", reason := "Blocked application detected: utorrent.exe",
                 severity := "high", activity_id := some 7, status := "active",
                 timestamp := 500, resolved_at := none }]
    next_id := 2 }

/-! ## Severity algebra -/

theorem severity_order_le_escalate_left (c n : String) :
    severity_order c ≤ severity_order (escalate_severity c n) := by
  unfold escalate_severity
  split
  case isTrue h => exact Nat.le_of_lt h
  case isFalse h => exact Nat.le_refl _

theorem severity_order_le_escalate_right (c n : String) :
    severity_order n ≤ severity_order (escalate_severity c n) := by
  unfold escalate_severity
  split
  case isTrue h => exact Nat.le_refl _
  case isFalse h => omega

theorem escalate_eq_or (c n : String) :
    escalate_severity c n = c ∨ escalate_severity c n = n := by
  unfold escalate_severity
  split
  case isTrue h => exact Or.inr rfl
  case isFalse h => exact Or.inl rfl

theorem escalate_ne_imp (c n : String) (h : escalate_severity c n ≠ c) :
    severity_order c < severity_order n := by
  unfold escalate_severity at h
  by_cases hlt : severity_order c < severity_order n
  · exact hlt
  · exact absurd (if_neg hlt) h

theorem foldSeverity_cons (init : String) (p : String × String)
    (l : List (String × String)) :
    foldSeverity init (p :: l) = foldSeverity (escalate_severity init p.2) l := rfl

theorem severity_order_init_le_foldSeverity (findings : List (String × String)) :
    ∀ init, severity_order init ≤ severity_order (foldSeverity init findings) := by
  induction findings with
  | nil => intro init; exact Nat.le_refl _
  | cons p l ih =>
    intro init
    rw [foldSeverity_cons]
    exact Nat.le_trans (severity_order_le_escalate_left init p.2)
      (ih (escalate_severity init p.2))

theorem severity_order_mem_le_foldSeverity (findings : List (String × String)) :
    ∀ init, ∀ p ∈ findings,
      severity_order p.2 ≤ severity_order (foldSeverity init findings) := by
  induction findings with
  | nil => intro init p hp; exact absurd hp (List.not_mem_nil p)
  | cons q l ih =>
    intro init p hp
    rw [foldSeverity_cons]
    rcases List.mem_cons.mp hp with heq | hmem
    · subst heq
      exact Nat.le_trans (severity_order_le_escalate_right init p.2)
        (severity_order_init_le_foldSeverity l (escalate_severity init p.2))
    · exact ih (escalate_severity init q.2) p hmem

theorem foldSeverity_eq_init_or_mem (findings : List (String × String)) :
    ∀ init, foldSeverity init findings = init ∨
      ∃ p ∈ findings, foldSeverity init findings = p.2 := by
  induction findings with
  | nil => intro init; exact Or.inl rfl
  | cons q l ih =>
    intro init
    rw [foldSeverity_cons]
    rcases ih (escalate_severity init q.2) with h | ⟨p, hp, h⟩
    · rcases escalate_eq_or init q.2 with he | he
      · exact Or.inl (by rw [h, he])
      · exact Or.inr ⟨q, List.mem_cons_self q l, by rw [h, he]⟩
    · exact Or.inr ⟨p, List.mem_cons_of_mem q hp, h⟩

/-! ## Shape of the finding sequence -/

theorem mem_optFinding {p : String × String} {c : Bool} {r s : String}
    (h : p ∈ optFinding c r s) : p = (r, s) := by
  unfold optFinding at h
  split at h
  · exact List.mem_singleton.mp h
  · exact absurd h (List.not_mem_nil p)

theorem mem_optFindingOf {p : String × String} {o : Option String} {s : String}
    (h : p ∈ optFindingOf o s) : ∃ r, o = some r ∧ p = (r, s) := by
  unfold optFindingOf at h
  match o with
  | none => exact absurd h (List.not_mem_nil p)
  | some r => exact ⟨r, rfl, List.mem_singleton.mp h⟩

theorem mem_optSegment {α : Type} {p : String × String} {o : Option α}
    {f : α → List (String × String)} (h : p ∈ optSegment o f) :
    ∃ x, o = some x ∧ p ∈ f x := by
  unfold optSegment at h
  match o with
  | none => exact absurd h (List.not_mem_nil p)
  | some x => exact ⟨x, rfl, h⟩

theorem optSegment_some {α : Type} (x : α) (f : α → List (String × String)) :
    optSegment (some x) f = f x := rfl

theorem optSegment_none {α : Type} (f : α → List (String × String)) :
    optSegment (none : Option α) f = [] := rfl

/-- Every severity a rule of `check_violations` can contribute is `"medium"`
or `"high"`. -/
theorem ruleFindings_snd (cfg : DetectorConfig) (processes : List String)
    (bytes_sent bytes_recv : Nat) (destinations : Option (List Dest))
    (cpu_percent memory_percent disk_percent : Option Rat)
    (upload_rate_kbps download_rate_kbps : Option Rat) :
    ∀ p ∈ ruleFindings cfg processes bytes_sent bytes_recv destinations
      cpu_percent memory_percent disk_percent upload_rate_kbps download_rate_kbps,
      p.2 = "medium" ∨ p.2 = "high" := by
  intro p hp
  unfold ruleFindings at hp
  simp only [List.mem_append] at hp
  rcases hp with ((((((((h | h) | h) | h) | h) | h) | h) | h) | h)
  · exact Or.inr (congrArg Prod.snd (mem_optFinding h))
  · exact Or.inl (congrArg Prod.snd (mem_optFinding h))
  · obtain ⟨dests, -, h⟩ := mem_optSegment h
    split at h
    · exact absurd h (List.not_mem_nil p)
    · obtain ⟨r, -, hpr⟩ := mem_optFindingOf h
      exact Or.inr (congrArg Prod.snd hpr)
  · obtain ⟨dests, -, h⟩ := mem_optSegment h
    exact Or.inl (congrArg Prod.snd (mem_optFinding h))
  · obtain ⟨cpu, -, h⟩ := mem_optSegment h
    exact Or.inl (congrArg Prod.snd (mem_optFinding h))
  · obtain ⟨memory, -, h⟩ := mem_optSegment h
    exact Or.inl (congrArg Prod.snd (mem_optFinding h))
  · obtain ⟨disk, -, h⟩ := mem_optSegment h
    exact Or.inl (congrArg Prod.snd (mem_optFinding h))
  · obtain ⟨rate, -, h⟩ := mem_optSegment h
    exact Or.inr (congrArg Prod.snd (mem_optFinding h))
  · obtain ⟨rate, -, h⟩ := mem_optSegment h
    exact Or.inl (congrArg Prod.snd (mem_optFinding h))

theorem foldSeverity_ne_low (f : List (String × String)) (hne : f ≠ [])
    (hsnd : ∀ p ∈ f, p.2 = "medium" ∨ p.2 = "high") :
    foldSeverity "low" f ≠ "low" := by
  obtain ⟨q, hq⟩ := List.exists_mem_of_ne_nil f hne
  have h1 : 1 ≤ severity_order q.2 := by
    rcases hsnd q hq with h2 | h2 <;> rw [h2] <;> decide
  have h2 : 1 ≤ severity_order (foldSeverity "low" f) :=
    Nat.le_trans h1 (severity_order_mem_le_foldSeverity f "low" q hq)
  intro hcontra
  rw [hcontra] at h2
  exact absurd h2 (by decide)

theorem foldSeverity_mem_of_ne_nil (f : List (String × String)) (hne : f ≠ [])
    (hsnd : ∀ p ∈ f, p.2 = "medium" ∨ p.2 = "high") :
    ∃ p ∈ f, foldSeverity "low" f = p.2 := by
  rcases foldSeverity_eq_init_or_mem f "low" with h | h
  · exact absurd h (foldSeverity_ne_low f hne hsnd)
  · exact h

section DetectorClaims

variable (cfg : DetectorConfig) (processes : List String) (bytes_sent bytes_recv : Nat)
variable (hostname : String) (destinations : Option (List Dest))
variable (cpu_percent memory_percent disk_percent : Option Rat)
variable (active_connections : Option Nat) (upload_rate_kbps download_rate_kbps : Option Rat)

theorem check_violations_of_eq_nil
    (h : ruleFindings cfg processes bytes_sent bytes_recv destinations
      cpu_percent memory_percent disk_percent upload_rate_kbps download_rate_kbps = []) :
    check_violations cfg processes bytes_sent bytes_recv hostname destinations
      cpu_percent memory_percent disk_percent active_connections
      upload_rate_kbps download_rate_kbps =
    { violation := false, reason := none, severity := "low", violated_processes := [] } := by
  simp [check_violations, List.isEmpty_iff, h]

theorem check_violations_of_ne_nil
    (h : ruleFindings cfg processes bytes_sent bytes_recv destinations
      cpu_percent memory_percent disk_percent upload_rate_kbps download_rate_kbps ≠ []) :
    check_violations cfg processes bytes_sent bytes_recv hostname destinations
      cpu_percent memory_percent disk_percent active_connections
      upload_rate_kbps download_rate_kbps =
    { violation := true
      reason := some (String.intercalate "; "
        ((ruleFindings cfg processes bytes_sent bytes_recv destinations
          cpu_percent memory_percent disk_percent upload_rate_kbps
          download_rate_kbps).map Prod.fst))
      severity := foldSeverity "low"
        (ruleFindings cfg processes bytes_sent bytes_recv destinations
          cpu_percent memory_percent disk_percent upload_rate_kbps download_rate_kbps)
      violated_processes := violatedProcessesOf cfg.blocked_keywords processes } := by
  simp [check_violations, List.isEmpty_iff, h]

/-- C6: for every input to `check_violations`, the returned verdict satisfies:
`violated` is false iff the findings list is empty, iff the joined `reason`
is absent, iff the severity is `"low"`. -/
theorem claim_C6 :
    ((check_violations cfg processes bytes_sent bytes_recv hostname destinations
        cpu_percent memory_percent disk_percent active_connections
        upload_rate_kbps download_rate_kbps).violation = false ↔
      ruleFindings cfg processes bytes_sent bytes_recv destinations
        cpu_percent memory_percent disk_percent upload_rate_kbps
        download_rate_kbps = []) ∧
    ((check_violations cfg processes bytes_sent bytes_recv hostname destinations
        cpu_percent memory_percent disk_percent active_connections
        upload_rate_kbps download_rate_kbps).violation = false ↔
      (check_violations cfg processes bytes_sent bytes_recv hostname destinations
        cpu_percent memory_percent disk_percent active_connections
        upload_rate_kbps download_rate_kbps).reason = none) ∧
    ((check_violations cfg processes bytes_sent bytes_recv hostname destinations
        cpu_percent memory_percent disk_percent active_connections
        upload_rate_kbps download_rate_kbps).violation = false ↔
      (check_violations cfg processes bytes_sent bytes_recv hostname destinations
        cpu_percent memory_percent disk_percent active_connections
        upload_rate_kbps download_rate_kbps).severity = "low") := by
  by_cases h : ruleFindings cfg processes bytes_sent bytes_recv destinations
      cpu_percent memory_percent disk_percent upload_rate_kbps download_rate_kbps = []
  · rw [check_violations_of_eq_nil cfg processes bytes_sent bytes_recv hostname
      destinations cpu_percent memory_percent disk_percent active_connections
      upload_rate_kbps download_rate_kbps h]
    simp [h]
  · rw [check_violations_of_ne_nil cfg processes bytes_sent bytes_recv hostname
      destinations cpu_percent memory_percent disk_percent active_connections
      upload_rate_kbps download_rate_kbps h]
    have hlow := foldSeverity_ne_low _ h
      (ruleFindings_snd cfg processes bytes_sent bytes_recv destinations
        cpu_percent memory_percent disk_percent upload_rate_kbps download_rate_kbps)
    simp [h, hlow]

/-- C10: the multi-rule Backend detector never returns severity
`"critical"`: every verdict's severity is one of low, medium, high. -/
theorem claim_C10 :
    (check_violations cfg processes bytes_sent bytes_recv hostname destinations
      cpu_percent memory_percent disk_percent active_connections
      upload_rate_kbps download_rate_kbps).severity ≠ "critical" ∧
    (check_violations cfg processes bytes_sent bytes_recv hostname destinations
      cpu_percent memory_percent disk_percent active_connections
      upload_rate_kbps download_rate_kbps).severity ∈
        (["low", "medium", "high"] : List String) := by
  by_cases h : ruleFindings cfg processes bytes_sent bytes_recv destinations
      cpu_percent memory_percent disk_percent upload_rate_kbps download_rate_kbps = []
  · rw [check_violations_of_eq_nil cfg processes bytes_sent bytes_recv hostname
      destinations cpu_percent memory_percent disk_percent active_connections
      upload_rate_kbps download_rate_kbps h]
    exact ⟨by decide, by decide⟩
  · rw [check_violations_of_ne_nil cfg processes bytes_sent bytes_recv hostname
      destinations cpu_percent memory_percent disk_percent active_connections
      upload_rate_kbps download_rate_kbps h]
    obtain ⟨p, hp, heq⟩ := foldSeverity_mem_of_ne_nil _ h
      (ruleFindings_snd cfg processes bytes_sent bytes_recv destinations
        cpu_percent memory_percent disk_percent upload_rate_kbps download_rate_kbps)
    rcases ruleFindings_snd cfg processes bytes_sent bytes_recv destinations
        cpu_percent memory_percent disk_percent upload_rate_kbps
        download_rate_kbps p hp with h2 | h2 <;>
      simp only [heq, h2] <;> exact ⟨by decide, by decide⟩

/-- C5: whenever at least one rule triggers, the verdict's severity is the
maximum of the triggered rules' severities in the order
low < medium < high < critical (it is one of the triggered severities and
dominates all of them, each of which is medium or high), and the running
maximum is replaced only by a strictly higher severity. -/
theorem claim_C5
    (h : ruleFindings cfg processes bytes_sent bytes_recv destinations
      cpu_percent memory_percent disk_percent upload_rate_kbps
      download_rate_kbps ≠ []) :
    ((∃ p ∈ ruleFindings cfg processes bytes_sent bytes_recv destinations
        cpu_percent memory_percent disk_percent upload_rate_kbps download_rate_kbps,
        (check_violations cfg processes bytes_sent bytes_recv hostname destinations
          cpu_percent memory_percent disk_percent active_connections
          upload_rate_kbps download_rate_kbps).severity = p.2) ∧
     (∀ p ∈ ruleFindings cfg processes bytes_sent bytes_recv destinations
        cpu_percent memory_percent disk_percent upload_rate_kbps download_rate_kbps,
        severity_order p.2 ≤ severity_order
          (check_violations cfg processes bytes_sent bytes_recv hostname destinations
            cpu_percent memory_percent disk_percent active_connections
            upload_rate_kbps download_rate_kbps).severity) ∧
     (∀ p ∈ ruleFindings cfg processes bytes_sent bytes_recv destinations
        cpu_percent memory_percent disk_percent upload_rate_kbps download_rate_kbps,
        p.2 = "medium" ∨ p.2 = "high")) ∧
    (∀ current new, escalate_severity current new ≠ current →
      severity_order current < severity_order new) := by
  rw [check_violations_of_ne_nil cfg processes bytes_sent bytes_recv hostname
    destinations cpu_percent memory_percent disk_percent active_connections
    upload_rate_kbps download_rate_kbps h]
  refine ⟨⟨?_, ?_, ?_⟩, ?_⟩
  · exact foldSeverity_mem_of_ne_nil _ h
      (ruleFindings_snd cfg processes bytes_sent bytes_recv destinations
        cpu_percent memory_percent disk_percent upload_rate_kbps download_rate_kbps)
  · intro p hp
    exact severity_order_mem_le_foldSeverity _ "low" p hp
  · exact ruleFindings_snd cfg processes bytes_sent bytes_recv destinations
      cpu_percent memory_percent disk_percent upload_rate_kbps download_rate_kbps
  · intro current new
    exact escalate_ne_imp current new

end DetectorClaims

/-- C2: whenever some destination's domain matches a suspicious keyword
(case-insensitive substring) or exactly matches the loaded blocked-domain
list, the suspicious/blocked-domain rule produces one finding whose listed
example domains are deduplicated, number at most 3, and all come from the
matches; a `"+N more"` suffix is appended exactly when more than 3 distinct
matches exist, with `N = (number of distinct matches) - 3`; and the rule's
severity contribution is high. -/
theorem claim_C2 (cfg : DetectorConfig) (processes : List String)
    (bytes_sent bytes_recv : Nat) (dests : List Dest)
    (cpu_percent memory_percent disk_percent : Option Rat)
    (upload_rate_kbps download_rate_kbps : Option Rat)
    (hfound : suspiciousFound cfg.blocked_domains dests ≠ [])
    (hdne : dests ≠ []) :
    check_suspicious_domains cfg.blocked_domains dests =
      some (suspReason (suspiciousFound cfg.blocked_domains dests)) ∧
    (suspReason (suspiciousFound cfg.blocked_domains dests), "high") ∈
      ruleFindings cfg processes bytes_sent bytes_recv (some dests)
        cpu_percent memory_percent disk_percent upload_rate_kbps download_rate_kbps ∧
    (suspExamples (suspiciousFound cfg.blocked_domains dests)).Nodup ∧
    (suspExamples (suspiciousFound cfg.blocked_domains dests)).length ≤ 3 ∧
    (∀ x ∈ suspExamples (suspiciousFound cfg.blocked_domains dests),
      x ∈ suspiciousFound cfg.blocked_domains dests) ∧
    (3 < suspCount (suspiciousFound cfg.blocked_domains dests) →
      suspReason (suspiciousFound cfg.blocked_domains dests) =
        suspBase ++ String.intercalate ", "
          (suspExamples (suspiciousFound cfg.blocked_domains dests)) ++
        " (+" ++ toString
          (suspCount (suspiciousFound cfg.blocked_domains dests) - 3) ++ " more)") ∧
    (suspCount (suspiciousFound cfg.blocked_domains dests) ≤ 3 →
      suspReason (suspiciousFound cfg.blocked_domains dests) =
        suspBase ++ String.intercalate ", "
          (suspExamples (suspiciousFound cfg.blocked_domains dests))) := by
  have hcheck : check_suspicious_domains cfg.blocked_domains dests =
      some (suspReason (suspiciousFound cfg.blocked_domains dests)) := by
    simp [check_suspicious_domains, List.isEmpty_iff, hfound]
  refine ⟨hcheck, ?_, List.nodup_dedup _, ?_, ?_, ?_, ?_⟩
  · have hseg : optSegment (some dests) (fun d =>
        if d.isEmpty then []
        else optFindingOf (check_suspicious_domains cfg.blocked_domains d) "high") =
        [(suspReason (suspiciousFound cfg.blocked_domains dests), "high")] := by
      rw [optSegment_some]
      simp only [List.isEmpty_iff]
      rw [if_neg hdne, hcheck]
      rfl
    unfold ruleFindings
    simp only [List.mem_append]
    refine Or.inl (Or.inl (Or.inl (Or.inl (Or.inl (Or.inl (Or.inr ?_))))))
    rw [hseg]
    exact List.mem_singleton.mpr rfl
  · exact Nat.le_trans
      (List.Sublist.length_le (List.dedup_sublist _))
      (List.length_take_le 3 _)
  · intro x hx
    exact List.mem_of_mem_take (List.mem_dedup.mp hx)
  · intro hc
    unfold suspReason
    rw [if_pos hc]
    simp only [String.append_assoc]
  · intro hc
    unfold suspReason
    rw [if_neg (Nat.not_lt.mpr hc), String.append_empty]

/-- C2 witness: a single VPN-keyword destination triggers the rule; its
finding carries severity high. -/
theorem claim_C2_witness :
    suspiciousFound cfgW.blocked_domains destsW ≠ [] ∧ destsW ≠ [] ∧
    (suspReason (suspiciousFound cfgW.blocked_domains destsW), "high") ∈
      ruleFindings cfgW [] 0 0 (some destsW) none none none none none :=
  ⟨by decide, by decide,
   (claim_C2 cfgW [] 0 0 destsW none none none none none
     (by decide) (by decide)).2.1⟩

/-- C5 witness: a snapshot with one blocked process triggers a rule, and the
verdict's severity is among the triggered severities. -/
theorem claim_C5_witness :
    ruleFindings cfgW ["utorrent.exe"] 0 0 none none none none none none ≠ [] ∧
    ∃ p ∈ ruleFindings cfgW ["utorrent.exe"] 0 0 none none none none none none,
      (check_violations cfgW ["utorrent.exe"] 0 0 "PC01" none none none none none
        none none).severity = p.2 :=
  ⟨by decide,
   (claim_C5 cfgW ["utorrent.exe"] 0 0 "PC01" none none none none none none none
     (by decide)).1.1⟩

/-- C3: the verdict for every ingested snapshot is computed from only
`processes`, `bytes_sent`, `bytes_recv` and `hostname` (all other snapshot
fields may vary arbitrarily without changing it), and the finding sequence
it evaluates consists of the blocked-process and bandwidth contributions
alone — the suspicious-domain, connection-count, CPU/memory/disk and
upload/download-rate rules never contribute for an ingested snapshot. -/
theorem claim_C3 :
    (∀ (cfg : DetectorConfig) (a b : ActivityRequest),
      a.processes = b.processes → a.bytes_sent = b.bytes_sent →
      a.bytes_recv = b.bytes_recv → a.hostname = b.hostname →
      submit_activity_verdict cfg a = submit_activity_verdict cfg b) ∧
    (∀ (cfg : DetectorConfig) (a : ActivityRequest),
      ruleFindings cfg a.processes a.bytes_sent a.bytes_recv none none none none
        none none =
      optFinding (!(violatedProcessesOf cfg.blocked_keywords a.processes).isEmpty)
        (processReason (violatedProcessesOf cfg.blocked_keywords a.processes))
        "high" ++
      optFinding (decide (cfg.bandwidth_threshold_bytes < a.bytes_sent + a.bytes_recv))
        (bandwidthReason (a.bytes_sent + a.bytes_recv) cfg.bandwidth_threshold_bytes)
        "medium") := by
  constructor
  · intro cfg a b h1 h2 h3 h4
    unfold submit_activity_verdict
    rw [h1, h2, h3, h4]
  · intro cfg a
    simp [ruleFindings, optSegment_none]

/-- C3 witness: two snapshots agreeing on the four ingested-verdict inputs but
differing in destinations and every optional metric get the same verdict. -/
theorem claim_C3_witness :
    activityW.processes = activityW2.processes ∧
    activityW.bytes_sent = activityW2.bytes_sent ∧
    activityW.bytes_recv = activityW2.bytes_recv ∧
    activityW.hostname = activityW2.hostname ∧
    activityW.destinations ≠ activityW2.destinations ∧
    submit_activity_verdict cfgW activityW = submit_activity_verdict cfgW activityW2 :=
  ⟨rfl, rfl, rfl, rfl, by decide,
   claim_C3.1 cfgW activityW activityW2 rfl rfl rfl rfl⟩

/-! ## Drain properties -/

theorem mark_map_eq (i now : Nat) (log : List Command) :
    (mark_command_executed i now log).2 = log.map (fun c =>
      if c.id == i then { c with status := "executed", executed_at := some now }
      else c) := rfl

theorem applyMarks_cons (i : Nat) (is : List Nat) (now : Nat) (log : List Command) :
    applyMarks (i :: is) now log =
      applyMarks is now (mark_command_executed i now log).2 := rfl

/-- A row of the log after the marking loop comes from a row of the original
log with the same id and student, either unchanged or marked executed. -/
theorem applyMarks_mem (ids : List Nat) (now : Nat) :
    ∀ (log : List Command) (c' : Command), c' ∈ applyMarks ids now log →
      ∃ c ∈ log, c'.id = c.id ∧ c'.student_id = c.student_id ∧
        (c' = c ∨ c'.status = "executed") := by
  induction ids with
  | nil => exact fun log c' h => ⟨c', h, rfl, rfl, Or.inl rfl⟩
  | cons i is ih =>
    intro log c' h
    rw [applyMarks_cons] at h
    obtain ⟨c, hc, hid, hsid, hst⟩ := ih _ c' h
    rw [mark_map_eq] at hc
    obtain ⟨c0, hc0, hfc⟩ := List.mem_map.mp hc
    by_cases hcase : c0.id == i
    · have hcc : c = { c0 with status := "executed", executed_at := some now } := by
        rw [← hfc]; simp [hcase]
      refine ⟨c0, hc0, by rw [hid, hcc], by rw [hsid, hcc], Or.inr ?_⟩
      rcases hst with he | he
      · rw [he, hcc]
      · exact he
    · have hcc : c = c0 := by rw [← hfc]; simp [hcase]
      exact ⟨c0, hc0, by rw [hid, hcc], by rw [hsid, hcc], by rw [hcc] at hst; exact hst⟩

/-- Every row whose id was marked by the loop ends up executed. -/
theorem applyMarks_marked (ids : List Nat) (now : Nat) :
    ∀ (log : List Command) (c' : Command), c' ∈ applyMarks ids now log →
      c'.id ∈ ids → c'.status = "executed" := by
  induction ids with
  | nil => intro log c' _ hid; exact absurd hid (List.not_mem_nil _)
  | cons i is ih =>
    intro log c' h hid
    rw [applyMarks_cons] at h
    by_cases hin : c'.id ∈ is
    · exact ih _ c' h hin
    · have hide : c'.id = i := by
        rcases List.mem_cons.mp hid with h' | h'
        · exact h'
        · exact absurd h' hin
      obtain ⟨c, hc, hcid, -, hst⟩ := applyMarks_mem is now _ c' h
      rcases hst with he | he
      · rw [mark_map_eq] at hc
        obtain ⟨c0, -, hfc⟩ := List.mem_map.mp hc
        by_cases hcase : c0.id == i
        · have hcc : c = { c0 with status := "executed", executed_at := some now } := by
            rw [← hfc]; simp [hcase]
          rw [he, hcc]
        · have hcc : c = c0 := by rw [← hfc]; simp [hcase]
          have hci : c.id = i := by rw [← hcid, hide]
          rw [hcc] at hci
          exact absurd hci (by simpa using hcase)
      · exact he

theorem drain_snd_eq (student_id : String) (now : Nat) (log : List Command) :
    (drain student_id now log).2 =
      applyMarks ((get_pending_commands student_id log).map Command.id) now log := by
  unfold drain applyMarks
  rw [List.foldl_map]

theorem get_pending_commands_mem (student_id : String) (log : List Command)
    (c : Command) :
    c ∈ get_pending_commands student_id log ↔
      c ∈ log ∧ c.student_id = student_id ∧ c.status = "pending" := by
  unfold get_pending_commands
  rw [List.mem_insertionSort, List.mem_filter]
  simp [pendingFor, and_assoc]

/-- C4: the commands poll returns exactly the endpoint's pending directives
(a permutation of the pending filter; membership characterised row by row),
in `created_at` ascending order, and marks each returned directive executed
in the same call; hence a second drain with no intervening enqueue returns
the empty sequence, and a drain with no pending directives returns the
empty sequence rather than an error. -/
theorem claim_C4 (student_id : String) (now now2 : Nat) (log : List Command) :
    List.Perm (drain student_id now log).1 (log.filter (pendingFor student_id)) ∧
    (∀ c : Command, c ∈ (drain student_id now log).1 ↔
      c ∈ log ∧ c.student_id = student_id ∧ c.status = "pending") ∧
    List.Sorted createdLe (drain student_id now log).1 ∧
    (∀ c' ∈ (drain student_id now log).2,
      c'.id ∈ ((drain student_id now log).1.map Command.id) →
        c'.status = "executed") ∧
    (drain student_id now2 ((drain student_id now log).2)).1 = [] ∧
    (log.filter (pendingFor student_id) = [] → (drain student_id now log).1 = []) := by
  refine ⟨List.perm_insertionSort createdLe _,
    fun c => get_pending_commands_mem student_id log c,
    List.sorted_insertionSort createdLe _, ?_, ?_, ?_⟩
  · intro c' hc' hid
    rw [drain_snd_eq] at hc'
    exact applyMarks_marked _ now _ c' hc' hid
  · show get_pending_commands student_id ((drain student_id now log).2) = []
    have hfil : ((drain student_id now log).2).filter (pendingFor student_id) = [] := by
      rw [List.filter_eq_nil_iff]
      intro c' hc' hpf
      have hpf' : c'.student_id = student_id ∧ c'.status = "pending" := by
        simpa [pendingFor] using hpf
      rw [drain_snd_eq] at hc'
      obtain ⟨c, hc, hcid, hcsid, hst⟩ := applyMarks_mem _ now _ c' hc'
      rcases hst with he | he
      · have hcmem : c ∈ get_pending_commands student_id log := by
          rw [get_pending_commands_mem]
          rw [he] at hpf'
          exact ⟨hc, hcsid ▸ hpf'.1, hpf'.2⟩
        have : c'.status = "executed" :=
          applyMarks_marked _ now _ c' hc'
            (List.mem_map.mpr ⟨c, hcmem, hcid.symm⟩)
        rw [hpf'.2] at this
        exact absurd this (by decide)
      · rw [hpf'.2] at he
        exact absurd he (by decide)
    unfold get_pending_commands
    rw [hfil]
    rfl
  · intro hf
    show get_pending_commands student_id log = []
    unfold get_pending_commands
    rw [hf]
    rfl

/-- C4 witness: draining `PC01` returns its single pending directive, a second
drain returns the empty sequence, and a drain over the empty log returns
the empty sequence. -/
theorem claim_C4_witness :
    (drain "PC01" 300 [blockW, pendingW]).1 = [pendingW] ∧
    (drain "PC01" 301 ((drain "PC01" 300 [blockW, pendingW]).2)).1 = [] ∧
    (drain "PC01" 302 ([] : List Command)).1 = [] :=
  ⟨by decide,
   (claim_C4 "PC01" 300 301 [blockW, pendingW]).2.2.2.2.1,
   (claim_C4 "PC01" 302 302 []).2.2.2.2.2 rfl⟩

/-! ## Derived blocked-domain state -/

/-- C1: the claim asserts that `currentlyBlocked` selects the latest directive
per `(endpoint, resource)` with `created_at` ties broken by higher
directive id, so that a `BLOCK_DOMAIN` followed by an `UNBLOCK_DOMAIN` for
the same domain never leaves the domain blocked.  The implementation's
query orders by `created_at` alone with no id tiebreak, and on the log
holding `blockW` (id 1) and `unblockW` (id 2) — identical `created_at`,
as produced by two enqueues within the same `datetime('now')` second —
the first-in-scan-order `BLOCK_DOMAIN` row is selected and `youtube.com`
is still reported blocked, contradicting the claim. -/
theorem claim_C1 :
    blockW.created_at = unblockW.created_at ∧
    blockW.id < unblockW.id ∧
    blockW.action = "BLOCK_DOMAIN" ∧
    unblockW.action = "UNBLOCK_DOMAIN" ∧
    blockW.student_id = "PC01" ∧
    unblockW.student_id = "PC01" ∧
    blockW.domain = some "youtube.com" ∧
    unblockW.domain = some "youtube.com" ∧
    get_currently_blocked_domains "PC01" [blockW, unblockW] = ["youtube.com"] := by
  decide

/-- C7: the blocked-domains query is a pure, idempotent projection over the
command log: it leaves the log unchanged, and a second call without an
intervening enqueue returns the identical result. -/
theorem claim_C7 (student_id : String) (log : List Command) :
    (blocked_domains_query student_id log).2 = log ∧
    (blocked_domains_query student_id
      ((blocked_domains_query student_id log).2)).1 =
      (blocked_domains_query student_id log).1 ∧
    (blocked_domains_query student_id
      ((blocked_domains_query student_id log).2)).2 = log :=
  ⟨rfl, rfl, rfl⟩

/-! ## Broadcast -/

/-- C8: a broadcast issued when no endpoint reported telemetry inside the
trailing window returns the zero-count result with an empty target list
and creates no directive rows — the command state is returned unchanged
and no exception path is taken. -/
theorem claim_C8 (action : String) (domain reason : Option String)
    (hours now : Nat) (activities : List Activity) (st : CommandState)
    (h : activities.filter (fun a => now ≤ a.timestamp + hours * 3600) = []) :
    (create_global_command action domain reason hours now activities st).1.commands_created = 0 ∧
    (create_global_command action domain reason hours now activities st).1.students = [] ∧
    (create_global_command action domain reason hours now activities st).2 = st := by
  have hact : get_active_students hours now activities = [] := by
    unfold get_active_students
    rw [h]
    rfl
  unfold create_global_command
  rw [hact]
  exact ⟨rfl, rfl, rfl⟩

/-- C8 witness: one stale activity, far outside a 24-hour window, yields the
zero-count broadcast and an untouched command log. -/
theorem claim_C8_witness :
    ([staleActivityW].filter (fun a => 100000 ≤ a.timestamp + 24 * 3600) = []) ∧
    (create_global_command "BLOCK_DOMAIN" (some "youtube.com") none 24 100000
      [staleActivityW] { log := [], next_id := 1 }).1.commands_created = 0 ∧
    (create_global_command "BLOCK_DOMAIN" (some "youtube.com") none 24 100000
      [staleActivityW] { log := [], next_id := 1 }).2 = { log := [], next_id := 1 } :=
  ⟨by decide,
   (claim_C8 "BLOCK_DOMAIN" (some "youtube.com") none 24 100000 [staleActivityW]
     { log := [], next_id := 1 } (by decide)).1,
   (claim_C8 "BLOCK_DOMAIN" (some "youtube.com") none 24 100000 [staleActivityW]
     { log := [], next_id := 1 } (by decide)).2.2⟩

/-! ## Alert lifecycle -/

/-- C9: `resolve_alert` returns true exactly when an alert with the given id
exists with status active; resolving is therefore possible at most once
(a second call on the same id returns false); no alert-table operation ever
moves a resolved alert out of the table or back to active; and a fresh
violation appends a new alert with a fresh id instead of reopening an old
one. -/
theorem claim_C9 :
    (∀ (alert_id now : Nat) (st : AlertState),
      (resolve_alert alert_id now st).1 = true ↔
        ∃ a ∈ st.alerts, a.id = alert_id ∧ a.status = "active") ∧
    (∀ (alert_id now now2 : Nat) (st : AlertState),
      (resolve_alert alert_id now2 (resolve_alert alert_id now st).2).1 = false) ∧
    (∀ (op : AlertOp) (st : AlertState) (a : Alert),
      a ∈ st.alerts → a.status = "resolved" → a ∈ (applyAlertOp op st).alerts) ∧
    (∀ (hostname reason severity : String) (activity_id : Option Nat)
      (now : Nat) (st : AlertState),
      (∀ a ∈ st.alerts, a.id < st.next_id) →
      ((insert_alert hostname reason severity activity_id now st).2.alerts =
        st.alerts ++
          [{ id := st.next_id, hostname := hostname, reason := reason,
             severity := severity, activity_id := activity_id,
             status := "active", timestamp := now, resolved_at := none }] ∧
       ∀ a ∈ st.alerts, a.id ≠ st.next_id)) := by
  refine ⟨?_, ?_, ?_, ?_⟩
  · intro alert_id now st
    simp [resolve_alert, List.any_eq_true]
  · intro alert_id now now2 st
    simp only [resolve_alert]
    rw [List.any_eq_false]
    intro a' ha'
    obtain ⟨a, -, hfa⟩ := List.mem_map.mp ha'
    by_cases hguard : (a.id == alert_id && a.status == "active") = true
    · rw [if_pos hguard] at hfa
      rw [← hfa]
      simp
    · rw [if_neg hguard] at hfa
      rw [← hfa]
      simpa using hguard
  · intro op st a ha hres
    match op with
    | AlertOp.insert hostname reason severity activity_id now =>
      exact List.mem_append_left _ ha
    | AlertOp.resolve alert_id now =>
      refine List.mem_map.mpr ⟨a, ha, ?_⟩
      rw [if_neg]
      simp [hres]
  · intro hostname reason severity activity_id now st hinv
    exact ⟨rfl, fun a ha => Nat.ne_of_lt (hinv a ha)⟩

/-- C9 witness: the single active alert with id 1 resolves (true), a second
resolve of the same id returns false, and an inserted alert gets the fresh
id 2, distinct from every existing id. -/
theorem claim_C9_witness :
    (resolve_alert 1 600 alertStateW).1 = true ∧
    (resolve_alert 1 700 (resolve_alert 1 600 alertStateW).2).1 = false ∧
    (∀ a ∈ alertStateW.alerts, a.id ≠ alertStateW.next_id) :=
  ⟨(claim_C9.1 1 600 alertStateW).mpr (by decide),
   claim_C9.2.1 1 600 700 alertStateW,
   (claim_C9.2.2.2 "PC01" "r" "high" none 800 alertStateW (by decide)).2⟩

end NetMon
